import Mathlib

/-!
# Personal-Website: `tracker.js` and `script.js`

A shallow embedding of the two browser scripts of the repository.

* `tracker.js` — the class `UserActivityTracker`: element description
  (`_getElementDescription`), console logging (`_logEvent`), the capture-phase click
  listener and the view observer callback.
* `script.js` — the `DOMContentLoaded` handler: the fade-in observer, the scroll listener
  of the navbar, and the cursor glow listeners.

Strings are Lean strings (sequences of characters). Case conversion is the ECMAScript one
on ASCII letters and leaves every other character as it is; tag names and input types of
HTML elements are ASCII.

The tracker receives whatever element an event targets. The properties `id` and `className`
are therefore values that are strings on an ordinary HTML element and objects elsewhere
(`className` of an SVG element, a property of a `form` shadowed by a named control), and
the operations that call a string method on them can throw.
-/

set_option autoImplicit false
set_option linter.unusedVariables false

namespace PersonalWebsite

/-! ## String primitives used by the scripts -/

/-- The method `String.prototype.toLowerCase`. -/
def toLowerCase (s : String) : String := ⟨s.data.map Char.toLower⟩

/-- The method `String.prototype.toUpperCase`. -/
def toUpperCase (s : String) : String := ⟨s.data.map Char.toUpper⟩

/-- The method `String.prototype.charAt`: the one-character string at position `i`, or the empty
string when `i` is out of range. -/
def charAt (s : String) (i : Nat) : String := ⟨(s.data.drop i).take 1⟩

/-- The method `String.prototype.slice` with a single, non-negative argument. -/
def slice (s : String) (start : Nat) : String := ⟨s.data.drop start⟩

/-- The pieces of a character sequence between the occurrences of `sep`. -/
def splitChars (sep : Char) : List Char → List (List Char)
  | [] => [[]]
  | c :: cs =>
    if c = sep then [] :: splitChars sep cs
    else
      match splitChars sep cs with
      | [] => [[c]]
      | w :: ws => (c :: w) :: ws

/-- The method `String.prototype.split` with a one-character separator: `"a b".split(' ')` is
`["a", "b"]`, `"a  b".split(' ')` is `["a", "", "b"]`, `"".split(' ')` is `[""]`. -/
def split (s : String) (sep : Char) : List String :=
  (splitChars sep s.data).map String.mk

/-- The method `Array.prototype.join` on an array of strings. -/
def join : List String → String → String
  | [], _ => ""
  | [x], _ => x
  | x :: y :: rest, sep => x ++ sep ++ join (y :: rest) sep

/-! ## `tracker.js`: the data model -/

/-- A property value as the tracker reads it off an element: a string, or an object that
is not a string, such as the `SVGAnimatedString` in `className` of an SVG element or the
form control that shadows the property of a `form`; `text` is what string conversion of
the object yields. -/
inductive PropertyValue where
  | string (s : String)
  | object (text : String)
  deriving DecidableEq, Repr

/-- Truthiness, as tested by `if (value)`: a string is truthy when it is non-empty, an
object always. -/
def PropertyValue.truthy : PropertyValue → Bool
  | PropertyValue.string s => decide (s ≠ "")
  | PropertyValue.object _ => true

/-- String conversion, as done by a template literal. -/
def PropertyValue.text : PropertyValue → String
  | PropertyValue.string s => s
  | PropertyValue.object text => text

/-- The failure of calling `split` on a value that has no such method. -/
def notAFunction : String := "TypeError: element.className.split is not a function"

/-- The method call `value.split(sep)`: the pieces of a string; a `TypeError` on an object
that is not a string. -/
def PropertyValue.split (value : PropertyValue) (sep : Char) : Except String (List String) :=
  match value with
  | PropertyValue.string s => Except.ok (PersonalWebsite.split s sep)
  | PropertyValue.object _ => Except.error notAFunction

/-- The properties of an element that the tracker reads. `node` is the identity of the DOM
node; `tagName` is the tag name as a string; `id` and `className` are the values of these
properties, strings on an ordinary HTML element; `type` is the `type` property, read for
`input` elements only; `dataTrackView` tells whether the attribute `data-track-view` is
present. -/
structure Element where
  node : Nat
  tagName : String
  id : PropertyValue
  className : PropertyValue
  type : String
  dataTrackView : Bool
  deriving DecidableEq, Repr

/-- The object returned by `_getElementDescription`. -/
structure ElementDescription where
  semanticType : String
  selector : String
  deriving DecidableEq, Repr

/-- The object `eventData` built by `_logEvent`. -/
structure EventData where
  timestamp : String
  eventType : String
  eventObject : ElementDescription
  deriving DecidableEq, Repr

/-- An argument of a `console.log` call: a string or the inspectable event object. -/
inductive ConsoleArg where
  | str (s : String)
  | obj (d : EventData)
  deriving DecidableEq, Repr

/-- The console: the argument lists of the `console.log` calls made so far, oldest first. -/
abbrev Console := List (List ConsoleArg)

/-- The state the tracker runs in: the console, the targets the view observer currently
observes (by node identity), the number of times the clock has been read, and the
exceptions that left a listener or an observer callback uncaught. -/
structure Tracker where
  console : Console
  observed : List Nat
  clockReads : Nat
  uncaught : List String
  deriving DecidableEq, Repr

/-- The clock of the host: the result of `new Date().toISOString()` at the `k`-th read. -/
abbrev Clock := Nat → String

/-- An `IntersectionObserverEntry`, as far as the scripts read it. -/
structure IntersectionObserverEntry (α : Type) where
  target : α
  isIntersecting : Bool
  deriving DecidableEq, Repr

/-- A click event: its `target` and the ancestors of the target on the propagation path. -/
structure ClickEvent where
  target : Element
  ancestors : List Element
  deriving DecidableEq, Repr

/-! ## `tracker.js`: the operations -/

/-- The method `UserActivityTracker._getElementDescription` (tracker.js 59-107). The class
part is guarded by truthiness only, so `split` is also called on a `className` that is an
object, and throws. -/
def _getElementDescription (element : Element) : Except String ElementDescription :=
  let tag := toLowerCase element.tagName
  let semanticType := "Unknown"
  let semanticType :=
    match tag with
    | "a" => "Link"
    | "button" => "Button"
    | "img" => "Image"
    | "select" => "Dropdown"
    | "input" => toUpperCase (charAt element.type 0) ++ slice element.type 1 ++ " Input"
    | "p" => "Text Content / Container"
    | "h1" => "Text Content / Container"
    | "h2" => "Text Content / Container"
    | "h3" => "Text Content / Container"
    | "h4" => "Text Content / Container"
    | "div" => "Text Content / Container"
    | "span" => "Text Content / Container"
    | _ => tag
  let selector := tag
  let selector :=
    if element.id.truthy then selector ++ ("#" ++ element.id.text) else selector
  if element.className.truthy then
    match element.className.split ' ' with
    | Except.error e => Except.error e
    | Except.ok pieces =>
      Except.ok { semanticType := semanticType, selector := selector ++ ("." ++ join pieces ".") }
  else Except.ok { semanticType := semanticType, selector := selector }

/-- The method `UserActivityTracker._logEvent` (tracker.js 115-128): one clock read, the
description of the element, and one `console.log` call with three arguments; when the
description throws, the exception leaves `_logEvent` before `console.log` is reached. -/
def _logEvent (clock : Clock) (t : Tracker) (type : String) (element : Element) :
    Except String Tracker :=
  let timestamp := clock t.clockReads
  match _getElementDescription element with
  | Except.error e => Except.error e
  | Except.ok eventObject =>
    let eventData : EventData :=
      { timestamp := timestamp
        eventType := type
        eventObject := eventObject }
    Except.ok
      { t with
        clockReads := t.clockReads + 1
        console := t.console ++
          [[ConsoleArg.str ("%c[" ++ toUpperCase type ++ "] Event Captured:"),
            ConsoleArg.str ("color: " ++ (if type = "click" then "#007bff" else "#28a745") ++
              "; font-weight: bold;"),
            ConsoleArg.obj eventData]] }

/-- The tracker after an exception has left a listener during `_logEvent`: the clock has
been read, nothing has been logged, and the exception is reported uncaught. -/
def reportUncaught (t : Tracker) (e : String) : Tracker :=
  { t with clockReads := t.clockReads + 1, uncaught := t.uncaught ++ [e] }

/-- The listener registered by `_initClickTracker` (tracker.js 28-30), as the browser runs
it on a click event. -/
def clickListener (clock : Clock) (t : Tracker) (event : ClickEvent) : Tracker :=
  match _logEvent clock t "click" event.target with
  | Except.ok t => t
  | Except.error e => reportUncaught t e

/-- The call `observer.unobserve(target)`: the target leaves the observation targets. -/
def unobserve (t : Tracker) (target : Element) : Tracker :=
  { t with observed := t.observed.filter (fun n => n ≠ target.node) }

/-- The callback of the view observer (tracker.js 38-46), as the browser runs it on a batch:
`entries.forEach` logs and unobserves the target of every intersecting entry; an exception
leaves `forEach`, so the entries after it are not processed. -/
def viewCallback (clock : Clock) (t : Tracker) :
    List (IntersectionObserverEntry Element) → Tracker
  | [] => t
  | entry :: rest =>
    if entry.isIntersecting then
      match _logEvent clock t "view" entry.target with
      | Except.ok t => viewCallback clock (unobserve t entry.target) rest
      | Except.error e => reportUncaught t e
    else viewCallback clock t rest

/-- The method `_initClickTracker` followed by `_initViewTracker` and the confirmation line of
`init` (tracker.js 17-21, 49-50): every element carrying `data-track-view` is observed. -/
def init (document : List Element) : Tracker :=
  { console := [[ConsoleArg.str "%cUser Activity Tracker Initialized.",
                 ConsoleArg.str "color: green; font-weight: bold;"]]
    observed := (document.filter (fun el => el.dataTrackView)).map (fun el => el.node)
    clockReads := 0
    uncaught := [] }

/-! ## The selector as the specification words it -/

/-- ASCII whitespace, the separators of the names in a `class` attribute. -/
def isAsciiWhitespace (c : Char) : Bool :=
  c = ' ' || c = '\t' || c = '\n' || c = '\x0c' || c = '\r'

/-- The whitespace-separated tokens of a character sequence, in their original order;
`cur` is the token being read, reversed. -/
def tokensAux : List Char → List Char → List (List Char)
  | [], cur => if cur = [] then [] else [cur.reverse]
  | c :: cs, cur =>
    if isAsciiWhitespace c then
      (if cur = [] then tokensAux cs [] else cur.reverse :: tokensAux cs [])
    else tokensAux cs (c :: cur)

/-- The class list of an element: the whitespace-separated tokens of its class attribute. -/
def specClassList (classAttribute : String) : List String :=
  (tokensAux classAttribute.data []).map String.mk

/-- The selector as specified, from the tag name, the id and the class attribute of an
element: the lowercase tag name, then `#id` exactly when the id is non-empty, then `.` and
the class names joined by `.` exactly when the class list is non-empty. -/
def specSelector (tagName id classAttribute : String) : String :=
  toLowerCase tagName ++
    (if id ≠ "" then "#" ++ id else "") ++
    (if specClassList classAttribute ≠ [] then "." ++ join (specClassList classAttribute) "."
     else "")

/-- The input subtype capitalised as specified: the first character upper-cased, the rest
unchanged. -/
def specCapitalize (s : String) : String :=
  match s.data with
  | [] => ""
  | c :: cs => ⟨c.toUpper :: cs⟩

/-- A `rect` inside an inline `svg`: its `className` is an `SVGAnimatedString`. -/
def svgRect : Element :=
  { node := 7
    tagName := "rect"
    id := PropertyValue.string ""
    className := PropertyValue.object "[object SVGAnimatedString]"
    type := ""
    dataTrackView := false }

/-- The form `<form class="f"><input name="className" type="hidden"></form>`: an
`HTMLElement` whose `className` is the input named `className`. -/
def shadowedForm : Element :=
  { node := 8
    tagName := "FORM"
    id := PropertyValue.string ""
    className := PropertyValue.object "[object HTMLInputElement]"
    type := ""
    dataTrackView := false }

/-- A button with id `go` and the classes `btn` and `primary`. -/
def goButton : Element :=
  { node := 1
    tagName := "BUTTON"
    id := PropertyValue.string "go"
    className := PropertyValue.string "btn primary"
    type := "submit"
    dataTrackView := true }

/-! ## `script.js`: the data model -/

/-- The document as `script.js` sees it: the elements in tree order (by node identity), the
root element, and for every node its local name, id, class list (the token set behind
`classList`) and `style.transform`. -/
structure Document where
  nodes : List Nat
  documentElement : Nat
  localName : Nat → String
  id : Nat → String
  classList : Nat → List String
  transform : Nat → String

/-- The call `classList.add(token)`: the token is appended unless it is already in the set. -/
def classListAdd (d : Document) (n : Nat) (token : String) : Document :=
  { d with
    classList := Function.update d.classList n
      (if token ∈ d.classList n then d.classList n else d.classList n ++ [token]) }

/-- The call `classList.remove(token)`. -/
def classListRemove (d : Document) (n : Nat) (token : String) : Document :=
  { d with
    classList := Function.update d.classList n ((d.classList n).filter (fun c => c ≠ token)) }

/-- Assignment to `style.transform` of node `n`. -/
def setTransform (d : Document) (n : Nat) (value : String) : Document :=
  { d with transform := Function.update d.transform n value }

/-- The call `document.querySelector` for a class selector `.c`: the first element in tree order
carrying the class, or `null`. -/
def querySelectorClass (d : Document) (c : String) : Option Nat :=
  d.nodes.find? (fun n => decide (c ∈ d.classList n))

/-- The call `document.querySelectorAll` for a class selector `.c`. -/
def querySelectorAllClass (d : Document) (c : String) : List Nat :=
  d.nodes.filter (fun n => decide (c ∈ d.classList n))

/-- The call `document.getElementById`. -/
def getElementById (d : Document) (id : String) : Option Nat :=
  d.nodes.find? (fun n => decide (d.id n = id))

/-- The call `document.querySelectorAll('a, .btn, .flip-card')`. -/
def querySelectorAllInteractive (d : Document) : List Nat :=
  d.nodes.filter (fun n =>
    decide (d.localName n = "a") || decide ("btn" ∈ d.classList n) ||
      decide ("flip-card" ∈ d.classList n))

/-- The page once the `DOMContentLoaded` handler has run: the document, the constant
`cursorGlow` (possibly `null`), the targets of the fade-in observer, the elements that got
the `mouseenter`/`mouseleave` listeners, and the animation-frame callbacks requested and
not yet run, each with the `x` and `y` it closes over, in scheduling order. -/
structure Page where
  document : Document
  cursorGlow : Option Nat
  sections : List Nat
  interactiveElements : List Nat
  frameRequests : List (Int × Int)

/-- The failure of a property access on `null`. -/
def typeError : String := "TypeError: Cannot read properties of null"

/-! ## `script.js`: the operations -/

/-- The `DOMContentLoaded` handler (script.js 3-63): removes `no-js` from the root,
observes every `.section`, registers the scroll and mousemove listeners, looks the cursor
glow up and registers the hover listeners on the interactive elements. -/
def domContentLoaded (d : Document) : Except String Page :=
  let d := classListRemove d d.documentElement "no-js"
  let sections := querySelectorAllClass d "section"
  let cursorGlow := getElementById d "cursor-glow"
  let interactiveElements := querySelectorAllInteractive d
  Except.ok
    { document := d
      cursorGlow := cursorGlow
      sections := sections
      interactiveElements := interactiveElements
      frameRequests := [] }

/-- The callback of the fade-in observer (script.js 9-16). -/
def fadeInCallback (d : Document) (entries : List (IntersectionObserverEntry Nat)) : Document :=
  entries.foldl
    (fun d entry => if entry.isIntersecting then classListAdd d entry.target "fade-in" else d)
    d

/-- The scroll listener (script.js 25-33); `scrollY` is `window.scrollY`. -/
def scrollHandler (d : Document) (scrollY : ℚ) : Except String Document :=
  let navbar := querySelectorClass d "navbar"
  if scrollY > 50 then
    match navbar with
    | none => Except.error typeError
    | some n => Except.ok (classListAdd d n "scrolled")
  else
    match navbar with
    | none => Except.error typeError
    | some n => Except.ok (classListRemove d n "scrolled")

/-- The scroll listener run on a sequence of scroll events, oldest first; a failing run of
the listener is the result of the whole sequence. -/
def scrollAll (d : Document) : List ℚ → Except String Document
  | [] => Except.ok d
  | y :: ys =>
    match scrollHandler d y with
    | Except.error e => Except.error e
    | Except.ok d => scrollAll d ys

/-- The mousemove listener (script.js 41-51): reads the coordinates and requests an
animation frame for the callback closing over them. -/
def mousemoveHandler (p : Page) (clientX clientY : Int) : Except String Page :=
  let x := clientX
  let y := clientY
  Except.ok { p with frameRequests := p.frameRequests ++ [(x, y)] }

/-- The value assigned to `style.transform` for the coordinates `x`, `y`. -/
def glowTransform (x y : Int) : String :=
  "translate(" ++ toString x ++ "px, " ++ toString y ++ "px) translate(-50%, -50%)"

/-- The animation-frame callback requested by the mousemove listener (script.js 47-50). -/
def frameCallback (p : Page) (x y : Int) : Except String Page :=
  match p.cursorGlow with
  | none => Except.error typeError
  | some glow => Except.ok { p with document := setTransform p.document glow (glowTransform x y) }

/-- The `mouseenter` listener of an interactive element (script.js 55-57). -/
def mouseenterHandler (p : Page) : Except String Page :=
  match p.cursorGlow with
  | none => Except.error typeError
  | some glow => Except.ok { p with document := classListAdd p.document glow "hover" }

/-- The `mouseleave` listener of an interactive element (script.js 58-60). -/
def mouseleaveHandler (p : Page) : Except String Page :=
  match p.cursorGlow with
  | none => Except.error typeError
  | some glow => Except.ok { p with document := classListRemove p.document glow "hover" }

/-- What the page receives while the glow follows the pointer: a mousemove event, or the
browser running the animation-frame callbacks requested so far. -/
inductive GlowEvent where
  | mousemove (clientX clientY : Int)
  | animationFrame
  deriving DecidableEq, Repr

/-- The browser runs the pending animation-frame callbacks in the order they were
requested; a callback that throws is reported and the next ones still run. -/
def runFrameCallbacks (p : Page) : List (Int × Int) → Page
  | [] => p
  | (x, y) :: rest =>
    match frameCallback p x y with
    | Except.ok p => runFrameCallbacks p rest
    | Except.error _ => runFrameCallbacks p rest

/-- One animation frame: the list of pending callbacks is taken and run. -/
def animationFrame (p : Page) : Page :=
  runFrameCallbacks { p with frameRequests := [] } p.frameRequests

/-- One step of the page on a glow event. -/
def glowStep (p : Page) : GlowEvent → Page
  | GlowEvent.mousemove x y =>
    match mousemoveHandler p x y with
    | Except.ok p => p
    | Except.error _ => p
  | GlowEvent.animationFrame => animationFrame p

/-- The invariant of the glow for the most recent mousemove at `(x, y)`: the glow is
known, and either the last pending callback closes over `(x, y)`, or no
callback is pending and the glow already sits at `(x, y)`. -/
def GlowTracks (glow : Nat) (x y : Int) (p : Page) : Prop :=
  p.cursorGlow = some glow ∧
    ((∃ l, p.frameRequests = l ++ [(x, y)]) ∨
      (p.frameRequests = [] ∧ p.document.transform glow = glowTransform x y))

/-! ## Sample documents -/

/-- A document with a root, a navbar that starts out shrunk, a section and the cursor glow. -/
def sampleDocument : Document :=
  { nodes := [0, 1, 2, 3]
    documentElement := 0
    localName := fun n => if n = 0 then "html" else if n = 1 then "nav" else "div"
    id := fun n => if n = 3 then "cursor-glow" else ""
    classList := fun n =>
      if n = 0 then ["no-js"] else if n = 1 then ["navbar", "scrolled"]
      else if n = 2 then ["section"] else []
    transform := fun _ => "" }

/-- A document with neither a navbar nor a cursor glow: a root, a section and a link. -/
def bareDocument : Document :=
  { nodes := [0, 1, 2]
    documentElement := 0
    localName := fun n => if n = 0 then "html" else if n = 1 then "div" else "a"
    id := fun _ => ""
    classList := fun n => if n = 0 then ["no-js"] else if n = 1 then ["section"] else ["btn"]
    transform := fun _ => "" }

/-- The page the `DOMContentLoaded` handler builds from `sampleDocument`. -/
def samplePage : Page :=
  { document := classListRemove sampleDocument 0 "no-js"
    cursorGlow := some 3
    sections := [2]
    interactiveElements := []
    frameRequests := [] }


/-! ## Facts about the string primitives -/

theorem char_toLower_ne_U (c : Char) : c.toLower ≠ 'U' := by
  unfold Char.toLower
  simp only
  split
  · rename_i h
    obtain ⟨h1, h2⟩ := h
    generalize c.toNat = n at h1 h2 ⊢
    interval_cases n <;> decide
  · rename_i h
    intro hc
    subst hc
    exact h (by decide)

theorem toLowerCase_ne_Unknown (s : String) : toLowerCase s ≠ "Unknown" := by
  intro h
  have hd : s.data.map Char.toLower = "Unknown".data := congrArg String.data h
  cases hs : s.data with
  | nil => rw [hs] at hd; exact absurd hd (by decide)
  | cons c cs =>
    rw [hs] at hd
    have : c.toLower = 'U' := by
      have := congrArg List.head? hd
      simpa using this
    exact char_toLower_ne_U c this

theorem append_Input_ne_Unknown (s : String) : s ++ " Input" ≠ "Unknown" := by
  intro h
  have hd : s.data ++ " Input".data = "Unknown".data := congrArg String.data h
  have := congrArg List.getLast? hd
  simp at this


theorem specCapitalize_eq (s : String) :
    toUpperCase (charAt s 0) ++ slice s 1 = specCapitalize s := by
  cases s with
  | mk data =>
    cases data with
    | nil => rfl
    | cons c cs => rfl

/-! ## `tracker.js`: element description -/

theorem description_returns (element : Element) (s : String)
    (h : element.className = PropertyValue.string s) :
    ∃ desc, _getElementDescription element = Except.ok desc := by
  unfold _getElementDescription
  simp only [h, PropertyValue.split]
  split
  · exact ⟨_, rfl⟩
  · exact ⟨_, rfl⟩

theorem description_throws (element : Element) (text : String)
    (h : element.className = PropertyValue.object text) :
    _getElementDescription element = Except.error notAFunction := by
  unfold _getElementDescription
  simp only [h, PropertyValue.split, PropertyValue.truthy, if_true]

theorem semanticType_of_ok (element : Element) (desc : ElementDescription)
    (h : _getElementDescription element = Except.ok desc) :
    desc.semanticType =
      match toLowerCase element.tagName with
      | "a" => "Link"
      | "button" => "Button"
      | "img" => "Image"
      | "select" => "Dropdown"
      | "input" => toUpperCase (charAt element.type 0) ++ slice element.type 1 ++ " Input"
      | "p" => "Text Content / Container"
      | "h1" => "Text Content / Container"
      | "h2" => "Text Content / Container"
      | "h3" => "Text Content / Container"
      | "h4" => "Text Content / Container"
      | "div" => "Text Content / Container"
      | "span" => "Text Content / Container"
      | _ => toLowerCase element.tagName := by
  unfold _getElementDescription at h
  simp only at h
  split at h
  · split at h
    · cases h
    · cases h
      rfl
  · cases h
    rfl

/-- C10. Whenever the description of an element is returned, and it is for every element
whose `className` is a string, its semantic type is never the placeholder `Unknown`; for
an input it ends in ` Input`, and in the default branch it is the lower-cased tag name. -/
theorem semanticType_ne_Unknown (element : Element) :
    (∀ s, element.className = PropertyValue.string s →
      ∃ desc, _getElementDescription element = Except.ok desc) ∧
    (∀ desc, _getElementDescription element = Except.ok desc →
      desc.semanticType ≠ "Unknown" ∧
      (toLowerCase element.tagName = "input" → ∃ s, desc.semanticType = s ++ " Input") ∧
      (toLowerCase element.tagName ∉
          ["a", "button", "img", "select", "input", "p", "h1", "h2", "h3", "h4", "div", "span"] →
        desc.semanticType = toLowerCase element.tagName)) := by
  refine ⟨description_returns element, ?_⟩
  intro desc hd
  have hs := semanticType_of_ok element desc hd
  refine ⟨?_, ?_, ?_⟩
  · rw [hs]
    split
    all_goals first
      | decide
      | exact append_Input_ne_Unknown _
      | exact toLowerCase_ne_Unknown _
  · intro h
    refine ⟨toUpperCase (charAt element.type 0) ++ slice element.type 1, ?_⟩
    rw [hs]
    simp only [h]
  · intro h
    simp only [List.mem_cons, List.mem_singleton, not_or, List.mem_nil_iff, not_false_eq_true,
      and_true] at h
    obtain ⟨h1, h2, h3, h4, h5, h6, h7, h8, h9, h10, h11, h12⟩ := h
    rw [hs]
    simp only

/-- C2. Whenever the description of an element is returned, and it is for every element
whose `className` is a string, the semantic type is decided by the lower-cased tag name:
the fixed labels of `a`, `button`, `img`, `select`, the capitalised input type followed by
` Input` for `input`, the container label for `p`, `h1`..`h4`, `div`, `span`, and the
lower-cased tag name itself for every other tag. -/
theorem semanticType_by_tag (element : Element) :
    (∀ s, element.className = PropertyValue.string s →
      ∃ desc, _getElementDescription element = Except.ok desc) ∧
    (∀ desc, _getElementDescription element = Except.ok desc →
      (toLowerCase element.tagName = "a" → desc.semanticType = "Link") ∧
      (toLowerCase element.tagName = "button" → desc.semanticType = "Button") ∧
      (toLowerCase element.tagName = "img" → desc.semanticType = "Image") ∧
      (toLowerCase element.tagName = "select" → desc.semanticType = "Dropdown") ∧
      (toLowerCase element.tagName = "input" →
        desc.semanticType = specCapitalize element.type ++ " Input") ∧
      (toLowerCase element.tagName ∈ ["p", "h1", "h2", "h3", "h4", "div", "span"] →
        desc.semanticType = "Text Content / Container") ∧
      (toLowerCase element.tagName ∉
          ["a", "button", "img", "select", "input", "p", "h1", "h2", "h3", "h4", "div", "span"] →
        desc.semanticType = toLowerCase element.tagName)) := by
  refine ⟨description_returns element, ?_⟩
  intro desc hd
  have hs := semanticType_of_ok element desc hd
  refine ⟨?_, ?_, ?_, ?_, ?_, ?_, ?_⟩
  · intro h
    rw [hs]
    simp only [h]
  · intro h
    rw [hs]
    simp only [h]
  · intro h
    rw [hs]
    simp only [h]
  · intro h
    rw [hs]
    simp only [h]
  · intro h
    rw [hs]
    simp only [h, specCapitalize_eq]
  · intro h
    simp only [List.mem_cons, List.mem_singleton, List.mem_nil_iff, or_false] at h
    rw [hs]
    rcases h with h | h | h | h | h | h | h <;> simp only [h]
  · intro h
    simp only [List.mem_cons, List.mem_singleton, not_or, List.mem_nil_iff, not_false_eq_true,
      and_true] at h
    obtain ⟨h1, h2, h3, h4, h5, h6, h7, h8, h9, h10, h11, h12⟩ := h
    rw [hs]
    simp only

/-- Witness of C2 on an anchor, a button, an image, a select, a checkbox input, a heading,
an `article` and an `h5`, each with the description the code returns for it. -/
theorem semanticType_by_tag_witness :
    (∃ desc, _getElementDescription ⟨1, "A", .string "", .string "", "", false⟩
      = Except.ok desc) ∧
    (_getElementDescription ⟨1, "A", .string "", .string "", "", false⟩
        = Except.ok ⟨"Link", "a"⟩ ∧
      (⟨"Link", "a"⟩ : ElementDescription).semanticType = "Link") ∧
    (_getElementDescription ⟨2, "BUTTON", .string "", .string "", "submit", false⟩
        = Except.ok ⟨"Button", "button"⟩ ∧
      (⟨"Button", "button"⟩ : ElementDescription).semanticType = "Button") ∧
    (_getElementDescription ⟨3, "IMG", .string "", .string "", "", false⟩
        = Except.ok ⟨"Image", "img"⟩ ∧
      (⟨"Image", "img"⟩ : ElementDescription).semanticType = "Image") ∧
    (_getElementDescription ⟨4, "SELECT", .string "", .string "", "select-one", false⟩
        = Except.ok ⟨"Dropdown", "select"⟩ ∧
      (⟨"Dropdown", "select"⟩ : ElementDescription).semanticType = "Dropdown") ∧
    (_getElementDescription ⟨5, "INPUT", .string "", .string "", "checkbox", false⟩
        = Except.ok ⟨"Checkbox Input", "input"⟩ ∧
      (⟨"Checkbox Input", "input"⟩ : ElementDescription).semanticType
        = specCapitalize "checkbox" ++ " Input") ∧
    (_getElementDescription ⟨6, "H3", .string "", .string "", "", false⟩
        = Except.ok ⟨"Text Content / Container", "h3"⟩ ∧
      (⟨"Text Content / Container", "h3"⟩ : ElementDescription).semanticType
        = "Text Content / Container") ∧
    (_getElementDescription ⟨7, "ARTICLE", .string "", .string "", "", false⟩
        = Except.ok ⟨"article", "article"⟩ ∧
      (⟨"article", "article"⟩ : ElementDescription).semanticType = toLowerCase "ARTICLE") ∧
    (_getElementDescription ⟨8, "H5", .string "", .string "", "", false⟩
        = Except.ok ⟨"h5", "h5"⟩ ∧
      (⟨"h5", "h5"⟩ : ElementDescription).semanticType = toLowerCase "H5") :=
  ⟨(semanticType_by_tag ⟨1, "A", .string "", .string "", "", false⟩).1 "" rfl,
   ⟨rfl, ((semanticType_by_tag ⟨1, "A", .string "", .string "", "", false⟩).2
      ⟨"Link", "a"⟩ rfl).1 (by decide)⟩,
   ⟨rfl, ((semanticType_by_tag ⟨2, "BUTTON", .string "", .string "", "submit", false⟩).2
      ⟨"Button", "button"⟩ rfl).2.1 (by decide)⟩,
   ⟨rfl, ((semanticType_by_tag ⟨3, "IMG", .string "", .string "", "", false⟩).2
      ⟨"Image", "img"⟩ rfl).2.2.1 (by decide)⟩,
   ⟨rfl, ((semanticType_by_tag ⟨4, "SELECT", .string "", .string "", "select-one", false⟩).2
      ⟨"Dropdown", "select"⟩ rfl).2.2.2.1 (by decide)⟩,
   ⟨rfl, ((semanticType_by_tag ⟨5, "INPUT", .string "", .string "", "checkbox", false⟩).2
      ⟨"Checkbox Input", "input"⟩ rfl).2.2.2.2.1 (by decide)⟩,
   ⟨rfl, ((semanticType_by_tag ⟨6, "H3", .string "", .string "", "", false⟩).2
      ⟨"Text Content / Container", "h3"⟩ rfl).2.2.2.2.2.1 (by decide)⟩,
   ⟨rfl, ((semanticType_by_tag ⟨7, "ARTICLE", .string "", .string "", "", false⟩).2
      ⟨"article", "article"⟩ rfl).2.2.2.2.2.2 (by decide)⟩,
   ⟨rfl, ((semanticType_by_tag ⟨8, "H5", .string "", .string "", "", false⟩).2
      ⟨"h5", "h5"⟩ rfl).2.2.2.2.2.2 (by decide)⟩⟩

/-- Witness of C10 on a checkbox input and on an `article` element, each with the
description the code returns for it. -/
theorem semanticType_ne_Unknown_witness :
    (∃ desc, _getElementDescription ⟨5, "INPUT", .string "", .string "", "checkbox", false⟩
      = Except.ok desc) ∧
    (_getElementDescription ⟨5, "INPUT", .string "", .string "", "checkbox", false⟩
        = Except.ok ⟨"Checkbox Input", "input"⟩ ∧
      ∃ s, (⟨"Checkbox Input", "input"⟩ : ElementDescription).semanticType = s ++ " Input") ∧
    (_getElementDescription ⟨7, "ARTICLE", .string "", .string "", "", false⟩
        = Except.ok ⟨"article", "article"⟩ ∧
      (⟨"article", "article"⟩ : ElementDescription).semanticType = toLowerCase "ARTICLE") :=
  ⟨(semanticType_ne_Unknown ⟨5, "INPUT", .string "", .string "", "checkbox", false⟩).1 "" rfl,
   ⟨rfl, ((semanticType_ne_Unknown ⟨5, "INPUT", .string "", .string "", "checkbox", false⟩).2
      ⟨"Checkbox Input", "input"⟩ rfl).2.1 (by decide)⟩,
   ⟨rfl, ((semanticType_ne_Unknown ⟨7, "ARTICLE", .string "", .string "", "", false⟩).2
      ⟨"article", "article"⟩ rfl).2.2 (by decide)⟩⟩

theorem splitChars_ne_nil (sep : Char) (l : List Char) : splitChars sep l ≠ [] := by
  cases l with
  | nil => simp [splitChars]
  | cons c cs =>
    unfold splitChars
    split
    · simp
    · split <;> simp

theorem join_cons_cons (c : Char) (w : List Char) (rest : List String) (sep : String) :
    join (String.mk (c :: w) :: rest) sep = String.mk [c] ++ join (String.mk w :: rest) sep := by
  cases rest with
  | nil => rfl
  | cons r rs =>
    simp only [join]
    apply String.ext
    simp

/-- Splitting at a character and joining with `.` replaces every occurrence of the
character by a dot. -/
theorem join_split_eq_replace (sep : Char) (l : List Char) :
    join ((splitChars sep l).map String.mk) "." =
      String.mk (l.map (fun c => if c = sep then '.' else c)) := by
  induction l with
  | nil => rfl
  | cons c cs ih =>
    unfold splitChars
    by_cases hc : c = sep
    · rw [if_pos hc]
      cases hs : splitChars sep cs with
      | nil => exact absurd hs (splitChars_ne_nil sep cs)
      | cons w ws =>
        rw [hs] at ih
        simp only [List.map_cons, join] at ih ⊢
        rw [ih]
        apply String.ext
        simp [hc]
    · rw [if_neg hc]
      cases hs : splitChars sep cs with
      | nil => exact absurd hs (splitChars_ne_nil sep cs)
      | cons w ws =>
        rw [hs] at ih
        simp only [List.map_cons] at ih ⊢
        rw [join_cons_cons, ih]
        apply String.ext
        simp [hc]

/-- The selector the code builds for an element whose id and `className` are strings: the
lower-cased tag name, `#` and the id when the id is non-empty, and, when the class
attribute is non-empty, a dot followed by the class attribute with every space replaced by
a dot. -/
theorem selector_eq (node : Nat) (tagName id cls type : String) (tracked : Bool) :
    ∃ desc, _getElementDescription
        ⟨node, tagName, PropertyValue.string id, PropertyValue.string cls, type, tracked⟩
        = Except.ok desc ∧
      desc.selector =
        toLowerCase tagName ++
          (if id ≠ "" then "#" ++ id else "") ++
          (if cls ≠ "" then
            "." ++ String.mk (cls.data.map (fun c => if c = ' ' then '.' else c))
           else "") := by
  have hj := join_split_eq_replace ' ' cls.data
  unfold _getElementDescription
  simp only [PropertyValue.split, PropertyValue.truthy, PropertyValue.text, split, hj]
  by_cases hid : id = "" <;> by_cases hcl : cls = "" <;>
    simp [hid, hcl, String.append_assoc]

/-- C1. On a button whose class attribute separates two names by two spaces the code
yields `button.btn..primary`, where the selector built from the whitespace-separated class
list is `button.btn.primary`; on a class attribute made of one space the code appends `..`
where the class list is empty. -/
theorem selector_double_space :
    _getElementDescription
        ⟨1, "BUTTON", .string "", .string "btn  primary", "submit", false⟩
      = Except.ok ⟨"Button", "button.btn..primary"⟩ ∧
    specSelector "BUTTON" "" "btn  primary" = "button.btn.primary" ∧
    _getElementDescription ⟨2, "DIV", .string "", .string " ", "", false⟩
      = Except.ok ⟨"Text Content / Container", "div.."⟩ ∧
    specSelector "DIV" "" " " = "div" := by
  refine ⟨rfl, ?_, rfl, ?_⟩ <;> decide

/-! ## `tracker.js`: logging, clicks and views -/

theorem logEvent_of_description (clock : Clock) (t : Tracker) (type : String)
    (element : Element) (desc : ElementDescription)
    (h : _getElementDescription element = Except.ok desc) :
    _logEvent clock t type element = Except.ok
      { t with
        clockReads := t.clockReads + 1
        console := t.console ++
          [[ConsoleArg.str ("%c[" ++ toUpperCase type ++ "] Event Captured:"),
            ConsoleArg.str ("color: " ++ (if type = "click" then "#007bff" else "#28a745") ++
              "; font-weight: bold;"),
            ConsoleArg.obj ⟨clock t.clockReads, type, desc⟩]] } := by
  unfold _logEvent
  simp only [h]

theorem logEvent_of_object (clock : Clock) (t : Tracker) (type : String)
    (element : Element) (text : String) (h : element.className = PropertyValue.object text) :
    _logEvent clock t type element = Except.error notAFunction := by
  unfold _logEvent
  simp only [description_throws element text h]

/-- C7. On an element whose `className` is an object and not a string, `_logEvent` throws
before `console.log` is reached and no record is emitted, whatever the event type: so on
the form whose `className` is shadowed by an input, and on a `rect` of an inline `svg`. -/
theorem logEvent_throws_on_object_className (clock : Clock) (t : Tracker) (type : String)
    (node : Nat) (tagName : String) (id : PropertyValue) (text inputType : String)
    (tracked : Bool) :
    _logEvent clock t type ⟨node, tagName, id, PropertyValue.object text, inputType, tracked⟩
      = Except.error notAFunction ∧
    _logEvent clock t "click" shadowedForm = Except.error notAFunction ∧
    _logEvent clock t "view" svgRect = Except.error notAFunction :=
  ⟨logEvent_of_object clock t type _ text rfl,
   logEvent_of_object clock t "click" shadowedForm _ rfl,
   logEvent_of_object clock t "view" svgRect _ rfl⟩

theorem clickListener_of_object (clock : Clock) (t : Tracker) (event : ClickEvent)
    (text : String) (h : event.target.className = PropertyValue.object text) :
    clickListener clock t event = reportUncaught t notAFunction := by
  unfold clickListener
  simp only [logEvent_of_object clock t "click" event.target text h]

theorem clicks_of_object_console (clock : Clock) (clicks : List ClickEvent) (t : Tracker)
    (h : ∀ ev ∈ clicks, ∃ text, ev.target.className = PropertyValue.object text) :
    (clicks.foldl (clickListener clock) t).console = t.console := by
  induction clicks generalizing t with
  | nil => rfl
  | cons ev rest ih =>
    obtain ⟨text, ht⟩ := h ev (List.mem_cons_self ev rest)
    rw [List.foldl_cons, clickListener_of_object clock t ev text ht,
      ih _ (fun e he => h e (List.mem_cons_of_mem ev he))]
    rfl

/-- C5. A click whose target is a `rect` of an inline `svg` makes the click listener throw
in `_logEvent` and emits no log entry: the console is as before the click, the exception
is reported uncaught, and `n` such clicks emit no entry either. -/
theorem click_on_svg_logs_nothing (clock : Clock) (t : Tracker) (ancestors : List Element)
    (n : Nat) :
    _logEvent clock t "click" svgRect = Except.error notAFunction ∧
    (clickListener clock t ⟨svgRect, ancestors⟩).console = t.console ∧
    (clickListener clock t ⟨svgRect, ancestors⟩).uncaught = t.uncaught ++ [notAFunction] ∧
    ((List.replicate n (⟨svgRect, ancestors⟩ : ClickEvent)).foldl
      (clickListener clock) t).console.length = t.console.length := by
  refine ⟨logEvent_of_object clock t "click" svgRect _ rfl, ?_, ?_, ?_⟩
  · rw [clickListener_of_object clock t ⟨svgRect, ancestors⟩ _ rfl]
    rfl
  · rw [clickListener_of_object clock t ⟨svgRect, ancestors⟩ _ rfl]
    rfl
  · rw [clicks_of_object_console clock _ t]
    intro ev hev
    rw [List.eq_of_mem_replicate hev]
    exact ⟨_, rfl⟩

/-- On targets whose `className` is a string the click listener appends one record per
click, of type `click`, holding the description of the target. -/
theorem clickListener_of_description (clock : Clock) (t : Tracker) (event : ClickEvent)
    (desc : ElementDescription) (h : _getElementDescription event.target = Except.ok desc) :
    clickListener clock t event =
      { t with
        clockReads := t.clockReads + 1
        console := t.console ++
          [[ConsoleArg.str "%c[CLICK] Event Captured:",
            ConsoleArg.str "color: #007bff; font-weight: bold;",
            ConsoleArg.obj ⟨clock t.clockReads, "click", desc⟩]] } := by
  unfold clickListener
  rw [logEvent_of_description clock t "click" event.target desc h]
  rfl

theorem viewCallback_cons_of_description (clock : Clock) (t : Tracker)
    (entry : IntersectionObserverEntry Element)
    (rest : List (IntersectionObserverEntry Element)) (desc : ElementDescription)
    (hi : entry.isIntersecting = true)
    (h : _getElementDescription entry.target = Except.ok desc) :
    viewCallback clock t (entry :: rest) =
      viewCallback clock
        (unobserve
          { t with
            clockReads := t.clockReads + 1
            console := t.console ++
              [[ConsoleArg.str "%c[VIEW] Event Captured:",
                ConsoleArg.str "color: #28a745; font-weight: bold;",
                ConsoleArg.obj ⟨clock t.clockReads, "view", desc⟩]] }
          entry.target) rest := by
  rw [viewCallback, if_pos hi, logEvent_of_description clock t "view" entry.target desc h]
  rfl

theorem viewCallback_console_length (clock : Clock)
    (entries : List (IntersectionObserverEntry Element)) (t : Tracker)
    (h : ∀ e ∈ entries, ∃ s, e.target.className = PropertyValue.string s) :
    (viewCallback clock t entries).console.length =
      t.console.length + (entries.filter (fun e => e.isIntersecting)).length := by
  induction entries generalizing t with
  | nil => simp [viewCallback]
  | cons e rest ih =>
    have hrest : ∀ x ∈ rest, ∃ s, x.target.className = PropertyValue.string s :=
      fun x hx => h x (List.mem_cons_of_mem e hx)
    cases he : e.isIntersecting with
    | false =>
      rw [viewCallback, if_neg (by simp [he]), ih t hrest]
      simp [he]
    | true =>
      obtain ⟨s, hs⟩ := h e (List.mem_cons_self e rest)
      obtain ⟨desc, hd⟩ := description_returns e.target s hs
      rw [viewCallback_cons_of_description clock t e rest desc he hd, ih _ hrest]
      simp [he, unobserve]
      omega

/-- C3. On entries whose targets have a string `className` the view callback appends one
record per intersecting entry of the batch it is given, whether or not two of them have
the same target: a batch holding two intersecting entries for one element logs that
element twice. -/
theorem view_logged_twice_in_one_batch (clock : Clock) (t : Tracker)
    (entries : List (IntersectionObserverEntry Element))
    (node : Nat) (tagName : String) (id : PropertyValue) (cls type : String) (tracked : Bool) :
    ((∀ e ∈ entries, ∃ s, e.target.className = PropertyValue.string s) →
      (viewCallback clock t entries).console.length =
        t.console.length + (entries.filter (fun e => e.isIntersecting)).length) ∧
    ∃ desc,
      _getElementDescription ⟨node, tagName, id, PropertyValue.string cls, type, tracked⟩
        = Except.ok desc ∧
      (viewCallback clock t
        [⟨⟨node, tagName, id, PropertyValue.string cls, type, tracked⟩, true⟩,
         ⟨⟨node, tagName, id, PropertyValue.string cls, type, tracked⟩, true⟩]).console =
        t.console ++
          [[ConsoleArg.str "%c[VIEW] Event Captured:",
            ConsoleArg.str "color: #28a745; font-weight: bold;",
            ConsoleArg.obj ⟨clock t.clockReads, "view", desc⟩],
           [ConsoleArg.str "%c[VIEW] Event Captured:",
            ConsoleArg.str "color: #28a745; font-weight: bold;",
            ConsoleArg.obj ⟨clock (t.clockReads + 1), "view", desc⟩]] := by
  refine ⟨viewCallback_console_length clock entries t, ?_⟩
  obtain ⟨desc, hd⟩ := description_returns
    ⟨node, tagName, id, PropertyValue.string cls, type, tracked⟩ cls rfl
  refine ⟨desc, hd, ?_⟩
  rw [viewCallback_cons_of_description clock t _ _ desc rfl hd,
    viewCallback_cons_of_description clock _ _ _ desc rfl hd]
  simp [viewCallback, unobserve]

/-- Witness of C3 on a batch with an intersecting, a non-intersecting and again an
intersecting entry for `goButton`: two records are appended. -/
theorem view_logged_twice_in_one_batch_witness :
    (viewCallback (fun _ => "2024-01-01T00:00:00.000Z") (init [goButton])
        [⟨goButton, true⟩, ⟨goButton, false⟩, ⟨goButton, true⟩]).console.length =
      (init [goButton]).console.length +
        (([⟨goButton, true⟩, ⟨goButton, false⟩, ⟨goButton, true⟩] :
          List (IntersectionObserverEntry Element)).filter (fun e => e.isIntersecting)).length :=
  (view_logged_twice_in_one_batch (fun _ => "2024-01-01T00:00:00.000Z") (init [goButton])
    [⟨goButton, true⟩, ⟨goButton, false⟩, ⟨goButton, true⟩] 0 "" (.string "") "" "" false).1
    (by
      intro e he
      simp only [List.mem_cons, List.mem_singleton, List.mem_nil_iff, or_false] at he
      rcases he with h | h | h <;> exact ⟨"btn primary", by rw [h]; rfl⟩)

/-! ## `script.js`: class lists -/

theorem classListAdd_classList (d : Document) (n m : Nat) (token : String) :
    (classListAdd d n token).classList m =
      if m = n then (if token ∈ d.classList n then d.classList n else d.classList n ++ [token])
      else d.classList m := by
  simp only [classListAdd, Function.update_apply]

theorem classListRemove_classList (d : Document) (n m : Nat) (token : String) :
    (classListRemove d n token).classList m =
      if m = n then (d.classList n).filter (fun c => c ≠ token) else d.classList m := by
  simp only [classListRemove, Function.update_apply]

theorem mem_classListAdd_self (d : Document) (n : Nat) (token : String) :
    token ∈ (classListAdd d n token).classList n := by
  rw [classListAdd_classList, if_pos rfl]
  split
  · assumption
  · simp

theorem mem_classListAdd_of_mem (d : Document) (n m : Nat) (token c : String)
    (h : c ∈ d.classList m) : c ∈ (classListAdd d n token).classList m := by
  rw [classListAdd_classList]
  split
  · rename_i hm
    subst hm
    split
    · exact h
    · exact List.mem_append_left _ h
  · exact h

theorem mem_classListAdd_iff_of_ne (d : Document) (n m : Nat) (token c : String)
    (hc : c ≠ token) : c ∈ (classListAdd d n token).classList m ↔ c ∈ d.classList m := by
  rw [classListAdd_classList]
  split
  · rename_i hm
    subst hm
    split
    · rfl
    · simp [hc]
  · rfl

theorem mem_classListRemove_iff_of_ne (d : Document) (n m : Nat) (token c : String)
    (hc : c ≠ token) : c ∈ (classListRemove d n token).classList m ↔ c ∈ d.classList m := by
  rw [classListRemove_classList]
  split
  · rename_i hm
    subst hm
    simp [hc]
  · rfl

theorem not_mem_classListRemove_self (d : Document) (n : Nat) (token : String) :
    token ∉ (classListRemove d n token).classList n := by
  rw [classListRemove_classList, if_pos rfl]
  simp

theorem classListAdd_idem (d : Document) (n : Nat) (token : String) :
    classListAdd (classListAdd d n token) n token = classListAdd d n token := by
  have h := mem_classListAdd_self d n token
  unfold classListAdd at h ⊢
  simp only [Function.update_same] at h ⊢
  simp only [if_pos h, Function.update_idem]

theorem querySelectorClass_congr (d d' : Document) (c : String) (hn : d'.nodes = d.nodes)
    (h : ∀ m, c ∈ d'.classList m ↔ c ∈ d.classList m) :
    querySelectorClass d' c = querySelectorClass d c := by
  unfold querySelectorClass
  rw [hn]
  congr 1
  funext m
  exact decide_eq_decide.mpr (h m)

theorem querySelectorClass_classListAdd (d : Document) (n : Nat) (token c : String)
    (hc : c ≠ token) :
    querySelectorClass (classListAdd d n token) c = querySelectorClass d c :=
  querySelectorClass_congr d _ c rfl (fun m => mem_classListAdd_iff_of_ne d n m token c hc)

theorem querySelectorClass_classListRemove (d : Document) (n : Nat) (token c : String)
    (hc : c ≠ token) :
    querySelectorClass (classListRemove d n token) c = querySelectorClass d c :=
  querySelectorClass_congr d _ c rfl (fun m => mem_classListRemove_iff_of_ne d n m token c hc)

/-! ## `script.js`: the fade-in observer -/

theorem fadeInCallback_mono (entries : List (IntersectionObserverEntry Nat)) (d : Document)
    (n : Nat) (h : "fade-in" ∈ d.classList n) :
    "fade-in" ∈ (fadeInCallback d entries).classList n := by
  induction entries generalizing d with
  | nil => exact h
  | cons e rest ih =>
    unfold fadeInCallback
    rw [List.foldl_cons]
    apply ih
    split
    · exact mem_classListAdd_of_mem d e.target n "fade-in" "fade-in" h
    · exact h

theorem fadeInCallback_append (d : Document) (xs ys : List (IntersectionObserverEntry Nat)) :
    fadeInCallback d (xs ++ ys) = fadeInCallback (fadeInCallback d xs) ys := by
  simp only [fadeInCallback, List.foldl_append]

theorem fadeInBatches_mono (batches : List (List (IntersectionObserverEntry Nat)))
    (d : Document) (n : Nat) (h : "fade-in" ∈ d.classList n) :
    "fade-in" ∈ (batches.foldl fadeInCallback d).classList n := by
  induction batches generalizing d with
  | nil => exact h
  | cons b rest ih =>
    rw [List.foldl_cons]
    exact ih _ (fadeInCallback_mono b d n h)

/-- C6. Once an intersecting entry for a node has been processed by the fade-in callback
the node carries `fade-in`, whatever entries and callbacks come before and after; and
processing an intersecting entry a second time leaves the document as it is. -/
theorem fadeIn_sticks (d : Document)
    (earlier later : List (List (IntersectionObserverEntry Nat)))
    (pre post : List (IntersectionObserverEntry Nat)) (n : Nat) :
    "fade-in" ∈
      ((earlier ++ [pre ++ ⟨n, true⟩ :: post] ++ later).foldl fadeInCallback d).classList n ∧
    fadeInCallback (fadeInCallback d [⟨n, true⟩]) [⟨n, true⟩] = fadeInCallback d [⟨n, true⟩] := by
  constructor
  · rw [List.foldl_append, List.foldl_append]
    apply fadeInBatches_mono
    simp only [List.foldl_cons, List.foldl_nil]
    rw [fadeInCallback_append]
    have hcons : fadeInCallback (fadeInCallback (List.foldl fadeInCallback d earlier) pre)
        (⟨n, true⟩ :: post) =
        fadeInCallback (classListAdd
          (fadeInCallback (List.foldl fadeInCallback d earlier) pre) n "fade-in") post := rfl
    rw [hcons]
    apply fadeInCallback_mono
    exact mem_classListAdd_self _ n "fade-in"
  · show classListAdd (classListAdd d n "fade-in") n "fade-in" = classListAdd d n "fade-in"
    exact classListAdd_idem d n "fade-in"

/-! ## `script.js`: the scroll listener -/

theorem scrollHandler_of_navbar (d : Document) (y : ℚ) (n : Nat)
    (h : querySelectorClass d "navbar" = some n) :
    ∃ d', scrollHandler d y = Except.ok d' ∧ querySelectorClass d' "navbar" = some n ∧
      ("scrolled" ∈ d'.classList n ↔ 50 < y) := by
  unfold scrollHandler
  simp only [h]
  by_cases hy : y > 50
  · rw [if_pos hy]
    refine ⟨_, rfl, ?_, ?_⟩
    · rw [querySelectorClass_classListAdd d n "scrolled" "navbar" (by decide)]
      exact h
    · exact ⟨fun _ => hy, fun _ => mem_classListAdd_self d n "scrolled"⟩
  · rw [if_neg hy]
    refine ⟨_, rfl, ?_, ?_⟩
    · rw [querySelectorClass_classListRemove d n "scrolled" "navbar" (by decide)]
      exact h
    · exact ⟨fun hm => absurd hm (not_mem_classListRemove_self d n "scrolled"),
        fun h50 => absurd h50 hy⟩

theorem scrollAll_of_navbar (ys : List ℚ) (d : Document) (n : Nat)
    (h : querySelectorClass d "navbar" = some n) :
    ∃ d', scrollAll d ys = Except.ok d' ∧ querySelectorClass d' "navbar" = some n := by
  induction ys generalizing d with
  | nil => exact ⟨d, rfl, h⟩
  | cons y rest ih =>
    obtain ⟨d1, h1, hn1, _⟩ := scrollHandler_of_navbar d y n h
    obtain ⟨d2, h2, hn2⟩ := ih d1 hn1
    refine ⟨d2, ?_, hn2⟩
    simp only [scrollAll, h1]
    exact h2

theorem scrollAll_append (ys zs : List ℚ) (d d1 : Document)
    (h : scrollAll d ys = Except.ok d1) : scrollAll d (ys ++ zs) = scrollAll d1 zs := by
  induction ys generalizing d with
  | nil =>
    simp only [scrollAll] at h
    cases h
    rfl
  | cons y rest ih =>
    simp only [List.cons_append, scrollAll] at h ⊢
    cases hs : scrollHandler d y with
    | error e => rw [hs] at h; cases h
    | ok d2 =>
      rw [hs] at h
      simp only at h ⊢
      exact ih d2 h

/-- C4. After the scroll listener has processed a non-empty sequence of scroll events the
navbar carries `scrolled` if and only if the last offset exceeds 50, whatever the earlier
offsets and the initial class lists are. -/
theorem navbar_scrolled_iff (d : Document) (ys : List ℚ) (y : ℚ) (n : Nat)
    (h : querySelectorClass d "navbar" = some n) :
    ∃ d', scrollAll d (ys ++ [y]) = Except.ok d' ∧ querySelectorClass d' "navbar" = some n ∧
      ("scrolled" ∈ d'.classList n ↔ 50 < y) := by
  obtain ⟨d1, h1, hn1⟩ := scrollAll_of_navbar ys d n h
  obtain ⟨d2, h2, hn2, hiff⟩ := scrollHandler_of_navbar d1 y n hn1
  refine ⟨d2, ?_, hn2, hiff⟩
  rw [scrollAll_append ys [y] d d1 h1]
  simp only [scrollAll, h2]

/-- Witness of C4: offsets 100, 3 and then exactly 50 on a navbar that starts out shrunk. -/
theorem navbar_scrolled_iff_witness :
    ∃ d', scrollAll sampleDocument ([100, 3] ++ [50]) = Except.ok d' ∧
      querySelectorClass d' "navbar" = some 1 ∧
      ("scrolled" ∈ d'.classList 1 ↔ (50 : ℚ) < 50) :=
  navbar_scrolled_iff sampleDocument [100, 3] 50 1 (by decide)

/-! ## `script.js`: the cursor glow -/

theorem runFrameCallbacks_cursorGlow (l : List (Int × Int)) (p : Page) (glow : Nat)
    (h : p.cursorGlow = some glow) :
    (runFrameCallbacks p l).cursorGlow = some glow ∧
      (runFrameCallbacks p l).frameRequests = p.frameRequests := by
  induction l generalizing p with
  | nil => exact ⟨h, rfl⟩
  | cons c rest ih =>
    obtain ⟨x, y⟩ := c
    simp only [runFrameCallbacks, frameCallback, h]
    exact ih _ rfl

theorem runFrameCallbacks_last (l : List (Int × Int)) (x y : Int) (p : Page) (glow : Nat)
    (h : p.cursorGlow = some glow) :
    (runFrameCallbacks p (l ++ [(x, y)])).document.transform glow = glowTransform x y := by
  induction l generalizing p with
  | nil =>
    simp only [List.nil_append, runFrameCallbacks, frameCallback, h, setTransform,
      Function.update_same]
  | cons c rest ih =>
    obtain ⟨a, b⟩ := c
    simp only [List.cons_append, runFrameCallbacks, frameCallback, h]
    exact ih _ rfl

theorem animationFrame_settled (glow : Nat) (x y : Int) (p : Page)
    (h : GlowTracks glow x y p) :
    (animationFrame p).cursorGlow = some glow ∧ (animationFrame p).frameRequests = [] ∧
      (animationFrame p).document.transform glow = glowTransform x y := by
  obtain ⟨hg, hq⟩ := h
  have hc := runFrameCallbacks_cursorGlow p.frameRequests { p with frameRequests := [] } glow hg
  refine ⟨hc.1, hc.2, ?_⟩
  rcases hq with ⟨l, hl⟩ | ⟨hnil, ht⟩
  · unfold animationFrame
    rw [hl]
    exact runFrameCallbacks_last l x y _ glow hg
  · unfold animationFrame
    rw [hnil]
    exact ht

theorem animationFrames_tracks (k : Nat) (glow : Nat) (x y : Int) (p : Page)
    (h : GlowTracks glow x y p) :
    GlowTracks glow x y ((List.replicate k GlowEvent.animationFrame).foldl glowStep p) := by
  induction k generalizing p with
  | zero => exact h
  | succ k ih =>
    rw [List.replicate_succ, List.foldl_cons]
    apply ih
    obtain ⟨h1, h2, h3⟩ := animationFrame_settled glow x y p h
    exact ⟨h1, Or.inr ⟨h2, h3⟩⟩

theorem glowStep_cursorGlow (p : Page) (e : GlowEvent) (glow : Nat)
    (h : p.cursorGlow = some glow) : (glowStep p e).cursorGlow = some glow := by
  cases e with
  | mousemove x y => exact h
  | animationFrame =>
    exact (runFrameCallbacks_cursorGlow p.frameRequests { p with frameRequests := [] } glow h).1

theorem glowSteps_cursorGlow (evs : List GlowEvent) (p : Page) (glow : Nat)
    (h : p.cursorGlow = some glow) : (evs.foldl glowStep p).cursorGlow = some glow := by
  induction evs generalizing p with
  | nil => exact h
  | cons e rest ih =>
    rw [List.foldl_cons]
    exact ih _ (glowStep_cursorGlow p e glow h)

/-- C8. With the glow element present: after two mousemove events and the frame that runs
their callbacks in scheduling order, the transform of the glow is that of the second
event; and after any sequence of mousemove events and frames, once the pending callbacks
have run, the transform is that of the most recent mousemove event. -/
theorem glow_follows_last_mousemove (p : Page) (glow : Nat) (h : p.cursorGlow = some glow)
    (x1 y1 x2 y2 : Int) (before : List GlowEvent) (x y : Int) (k : Nat) :
    (animationFrame (glowStep (glowStep p (GlowEvent.mousemove x1 y1))
        (GlowEvent.mousemove x2 y2))).document.transform glow =
      "translate(" ++ toString x2 ++ "px, " ++ toString y2 ++ "px) translate(-50%, -50%)" ∧
    (animationFrame ((before ++ GlowEvent.mousemove x y ::
        List.replicate k GlowEvent.animationFrame).foldl glowStep p)).document.transform glow =
      "translate(" ++ toString x ++ "px, " ++ toString y ++ "px) translate(-50%, -50%)" := by
  constructor
  · have ht : GlowTracks glow x2 y2
        (glowStep (glowStep p (GlowEvent.mousemove x1 y1)) (GlowEvent.mousemove x2 y2)) :=
      ⟨h, Or.inl ⟨p.frameRequests ++ [(x1, y1)], rfl⟩⟩
    exact (animationFrame_settled glow x2 y2 _ ht).2.2
  · rw [List.foldl_append, List.foldl_cons]
    have hq := glowSteps_cursorGlow before p glow h
    have ht : GlowTracks glow x y
        (glowStep (List.foldl glowStep p before) (GlowEvent.mousemove x y)) :=
      ⟨hq, Or.inl ⟨(List.foldl glowStep p before).frameRequests, rfl⟩⟩
    exact (animationFrame_settled glow x y _ (animationFrames_tracks k glow x y _ ht)).2.2

/-- Witness of C8 on the page built from `sampleDocument`, whose glow is node 3. -/
theorem glow_follows_last_mousemove_witness :
    domContentLoaded sampleDocument = Except.ok samplePage ∧
    (animationFrame (glowStep (glowStep samplePage (GlowEvent.mousemove 10 20))
        (GlowEvent.mousemove 30 40))).document.transform 3 =
      "translate(" ++ toString (30 : Int) ++ "px, " ++ toString (40 : Int) ++
        "px) translate(-50%, -50%)" ∧
    (animationFrame (([GlowEvent.mousemove 1 2, GlowEvent.animationFrame] ++
        GlowEvent.mousemove 5 (-6) ::
        List.replicate 2 GlowEvent.animationFrame).foldl glowStep samplePage)).document.transform 3 =
      "translate(" ++ toString (5 : Int) ++ "px, " ++ toString (-6 : Int) ++
        "px) translate(-50%, -50%)" :=
  ⟨rfl, glow_follows_last_mousemove samplePage 3 rfl 10 20 30 40
    [GlowEvent.mousemove 1 2, GlowEvent.animationFrame] 5 (-6) 2⟩

/-! ## `script.js`: absent elements -/

theorem scrollHandler_of_no_navbar (d : Document) (y : ℚ)
    (h : querySelectorClass d "navbar" = none) : scrollHandler d y = Except.error typeError := by
  unfold scrollHandler
  simp only [h]
  split <;> rfl

theorem scrollHandler_error_iff (d : Document) (y : ℚ) :
    scrollHandler d y = Except.error typeError ↔ querySelectorClass d "navbar" = none := by
  constructor
  · intro h
    cases hn : querySelectorClass d "navbar" with
    | none => rfl
    | some n =>
      obtain ⟨d', hd, _⟩ := scrollHandler_of_navbar d y n hn
      rw [hd] at h
      cases h
  · exact scrollHandler_of_no_navbar d y

/-- C9. Without a navbar the `DOMContentLoaded` handler completes and every scroll event
then fails at the class-list access, whatever the offset. Without a cursor glow the
handler completes with `cursorGlow` null, and on every page it can lead to the mousemove
listener completes, while the animation-frame callback, the mouseenter listener and the
mouseleave listener fail. The scroll listener fails exactly when the navbar is absent. -/
theorem absent_elements_fail_at_use (d : Document) :
    (querySelectorClass d "navbar" = none →
      ∃ p, domContentLoaded d = Except.ok p ∧ querySelectorClass p.document "navbar" = none ∧
        ∀ y : ℚ, scrollHandler p.document y = Except.error typeError) ∧
    (getElementById d "cursor-glow" = none →
      ∃ p, domContentLoaded d = Except.ok p ∧ p.cursorGlow = none ∧
        ∀ (doc : Document) (requests : List (Int × Int)) (x y : Int),
          mousemoveHandler { p with document := doc, frameRequests := requests } x y =
            Except.ok { p with document := doc, frameRequests := requests ++ [(x, y)] } ∧
          frameCallback { p with document := doc, frameRequests := requests } x y =
            Except.error typeError ∧
          mouseenterHandler { p with document := doc, frameRequests := requests } =
            Except.error typeError ∧
          mouseleaveHandler { p with document := doc, frameRequests := requests } =
            Except.error typeError) ∧
    (∀ (doc : Document) (y : ℚ),
      scrollHandler doc y = Except.error typeError ↔ querySelectorClass doc "navbar" = none) := by
  refine ⟨?_, ?_, scrollHandler_error_iff⟩
  · intro h
    have hn : querySelectorClass (classListRemove d d.documentElement "no-js") "navbar" = none := by
      rw [querySelectorClass_classListRemove d d.documentElement "no-js" "navbar" (by decide)]
      exact h
    exact ⟨_, rfl, hn, fun y => scrollHandler_of_no_navbar _ y hn⟩
  · intro h
    refine ⟨_, rfl, h, ?_⟩
    intro doc requests x y
    have hg : getElementById (classListRemove d d.documentElement "no-js") "cursor-glow"
        = none := h
    refine ⟨rfl, ?_, ?_, ?_⟩
    · simp only [frameCallback, hg]
    · simp only [mouseenterHandler, hg]
    · simp only [mouseleaveHandler, hg]

/-- Witness of C9 on `bareDocument`, which has neither a navbar nor a cursor glow. -/
theorem absent_elements_fail_at_use_witness :
    (∃ p, domContentLoaded bareDocument = Except.ok p ∧
        querySelectorClass p.document "navbar" = none ∧
        ∀ y : ℚ, scrollHandler p.document y = Except.error typeError) ∧
    (∃ p, domContentLoaded bareDocument = Except.ok p ∧ p.cursorGlow = none ∧
        ∀ (doc : Document) (requests : List (Int × Int)) (x y : Int),
          mousemoveHandler { p with document := doc, frameRequests := requests } x y =
            Except.ok { p with document := doc, frameRequests := requests ++ [(x, y)] } ∧
          frameCallback { p with document := doc, frameRequests := requests } x y =
            Except.error typeError ∧
          mouseenterHandler { p with document := doc, frameRequests := requests } =
            Except.error typeError ∧
          mouseleaveHandler { p with document := doc, frameRequests := requests } =
            Except.error typeError) :=
  ⟨(absent_elements_fail_at_use bareDocument).1 (by decide),
   (absent_elements_fail_at_use bareDocument).2.1 (by decide)⟩

end PersonalWebsite
